import Mathlib

/-!
Shallow embedding of the car-sim multiplayer driving game for checking its
natural-language specification. JavaScript numbers that only ever hold exact
values (timestamps, seeds, counters) are modelled as `Int`/`Nat`; real-valued
quantities (positions, health, damage, pseudo-random draws) as `ℚ`, which is
exact for every arithmetic operation the embedded code performs; a health field
that may hold `NaN` is modelled as `Option ℚ` with `none` for `NaN`. JavaScript
`Map`/`Record` objects are modelled as insertion-ordered association lists and
`Set` objects as duplicate-free lists.
-/

namespace CarSim

/-- Vector3 {x, y, z} as used throughout the client and the server. -/
structure Vec3 where
  x : ℚ
  y : ℚ
  z : ℚ
deriving Repr, DecidableEq

/-- Zero vector, the initial velocity of every player. -/
def Vec3.zero : Vec3 := ⟨0, 0, 0⟩

/-- JavaScript Map.set / object-spread-with-key semantics: replace the value in
place if the key exists, append at the end otherwise. -/
def mapSet {α : Type} : List (String × α) → String → α → List (String × α)
  | [], k, v => [(k, v)]
  | e :: rest, k, v => if e.1 = k then (k, v) :: rest else e :: mapSet rest k v

/-! ## Client player state store (src/client/src/store/gameStore.ts) -/

namespace GameStore

/-- Player record as the client store holds it (shared/types/player.ts).
`health` is `Option ℚ` because the merge path can let `NaN` in (`none` models
`NaN` or a missing numeric value, both of which `isNaN` maps to true).
`lastCollision` is optional in the source and is read only through the falsy
test `!player.lastCollision`, so it is modelled as an `Int` where `0` stands
for the absent/undefined value. `joinTime` is read the same way. -/
structure CPlayer where
  id : String
  name : String
  position : Vec3
  rotation : Vec3
  velocity : Vec3
  color : String
  lastUpdate : Int
  health : Option ℚ
  lastCollision : Int
  joinTime : Int
deriving Repr, DecidableEq

/-- Whole zustand store state: playerId, players record, worldSeed,
isConnected. -/
structure GameState where
  playerId : Option String
  players : List (String × CPlayer)
  worldSeed : Option Int
  isConnected : Bool
deriving Repr, DecidableEq

/-- Partial<Player> as received by the store's updatePlayer action. A field
set to `none` is an absent key; `health = some none` is a present key holding
`NaN`. -/
structure CPlayerUpdate where
  position : Option Vec3
  rotation : Option Vec3
  velocity : Option Vec3
  color : Option String
  health : Option (Option ℚ)
  lastCollision : Option Int
  name : Option String
  joinTime : Option Int
deriving Repr, DecidableEq

/-- Update object with no keys present. -/
def noUpdate : CPlayerUpdate := ⟨none, none, none, none, none, none, none, none⟩

/-- JavaScript object spread { ...player, ...updates }: a present key replaces
the field, an absent key leaves it. -/
def applyUpdate (p : CPlayer) (u : CPlayerUpdate) : CPlayer :=
  { p with
    position := u.position.getD p.position
    rotation := u.rotation.getD p.rotation
    velocity := u.velocity.getD p.velocity
    color := u.color.getD p.color
    health := u.health.getD p.health
    lastCollision := u.lastCollision.getD p.lastCollision
    name := u.name.getD p.name
    joinTime := u.joinTime.getD p.joinTime }

/-- Default player entry created by updatePlayer for an unknown id
(gameStore.ts lines 44-63). The fresh object carries no lastCollision key. -/
def defaultCPlayer (id : String) (now : Int) : CPlayer :=
  { id := id
    name := "Player " ++ id.take 4
    position := Vec3.zero
    rotation := Vec3.zero
    velocity := Vec3.zero
    color := "#FF5252"
    lastUpdate := now
    health := some 100
    lastCollision := 0
    joinTime := now }

/-- Store action updatePlayer (gameStore.ts lines 40-77): creates a
default-initialized entry when the id is absent, otherwise shallow-merges. -/
def updatePlayer (s : GameState) (id : String) (u : CPlayerUpdate) (now : Int) : GameState :=
  match s.players.lookup id with
  | none => { s with players := s.players ++ [(id, applyUpdate (defaultCPlayer id now) u)] }
  | some p => { s with players := mapSet s.players id (applyUpdate p u) }

/-- Defensive read `isNaN(player.health) ? 100 : player.health`
(gameStore.ts line 93). -/
def jsHealth : Option ℚ → ℚ
  | none => 100
  | some h => h

/-- Store action damagePlayer (gameStore.ts lines 88-111): treats a NaN health
as 100, subtracts, clamps below at 0, stamps lastCollision. Unknown id is a
no-op returning the state unchanged. -/
def damagePlayer (s : GameState) (id : String) (amount : ℚ) (now : Int) : GameState :=
  match s.players.lookup id with
  | none => s
  | some p =>
    let newHealth : ℚ := max 0 (jsHealth p.health - amount)
    { s with players := mapSet s.players id { p with health := some newHealth, lastCollision := now } }

/-- Store action resetHealth (gameStore.ts lines 114-127): sets health back to
100; unknown id is a no-op. -/
def resetHealth (s : GameState) (id : String) : GameState :=
  match s.players.lookup id with
  | none => s
  | some p => { s with players := mapSet s.players id { p with health := some 100 } }

/-- Health field of the player stored at an id, for stating preservation. -/
def healthAt (s : GameState) (id : String) : Option (Option ℚ) :=
  (s.players.lookup id).map CPlayer.health

end GameStore

/-! ## Collision and damage resolver
(src/client/src/utils/collisionUtils.ts, src/client/src/services/collisionService.ts) -/

namespace Collision

open GameStore

/-- MIN_DAMAGE_SPEED = 0.1 (collisionUtils.ts). -/
def MIN_DAMAGE_SPEED : ℚ := 1/10

/-- COLLISION_COOLDOWN = 1000 ms (collisionUtils.ts). -/
def COLLISION_COOLDOWN : Int := 1000

/-- SPAWN_PROTECTION_TIME = 10000 ms (collisionUtils.ts). -/
def SPAWN_PROTECTION_TIME : Int := 10000

/-- VEHICLE_WIDTH = 2 (collisionUtils.ts). -/
def VEHICLE_WIDTH : ℚ := 2

/-- TREE_RADIUS = 1.5 (collisionUtils.ts). -/
def TREE_RADIUS : ℚ := 3/2

/-- calculateDamage (collisionUtils.ts): zero below the minimum speed,
otherwise min(MAX_DAMAGE, speed / MAX_SPEED * MAX_DAMAGE) with MAX_DAMAGE = 25
and MAX_SPEED = 1.0. -/
def calculateDamage (speed : ℚ) : ℚ :=
  if speed < MIN_DAMAGE_SPEED then 0 else min 25 (speed / 1 * 25)

/-- hasSpawnProtection (collisionUtils.ts lines 123-129). The source first
tests the falsy `!player.joinTime` (undefined or 0), then compares
`Date.now() - joinTime` against the window. -/
def hasSpawnProtection (now : Int) (p : CPlayer) : Bool :=
  if p.joinTime = 0 then false
  else decide (now - p.joinTime < SPAWN_PROTECTION_TIME)

/-- hasRecentCollision (collisionService.ts): falsy test on lastCollision,
then the cooldown window. -/
def hasRecentCollision (now : Int) (p : CPlayer) : Bool :=
  if p.lastCollision = 0 then false
  else decide (now - p.lastCollision < COLLISION_COOLDOWN)

/-- checkTreeCollision (collisionUtils.ts): pure squared horizontal distance
against (VEHICLE_WIDTH/2 + TREE_RADIUS)². -/
def checkTreeCollision (pos tree : Vec3) : Bool :=
  decide ((pos.x - tree.x)^2 + (pos.z - tree.z)^2 < (VEHICLE_WIDTH/2 + TREE_RADIUS)^2)

/-- Oracle for the two real-valued helpers of the resolver that compute with
transcendental / square-root functions: `collide` stands for
checkVehicleCollision (axis-aligned extents of the rotated footprint, using
Math.cos/Math.sin) and `speed` for getPlayerSpeed (Euclidean norm of the
velocity). The theorems below hold for every instantiation of the oracle, so
they hold in particular for the concrete floating-point functions. -/
structure Oracle where
  collide : CPlayer → CPlayer → Bool
  speed : CPlayer → ℚ

/-- Body of the per-other-player loop of
CollisionService.checkVehicleCollisions (collisionService.ts lines 38-115):
decisions (collision test, cooldown, spawn protection, speeds) are taken from
the state snapshot captured on entry, while damage is applied to the live
store state threaded through the fold. -/
def vehicleStep (o : Oracle) (now : Int) (playerId : String) (player : CPlayer)
    (live : GameState) (entry : String × CPlayer) : GameState :=
  if entry.1 = playerId then live
  else if o.collide player entry.2 then
    let playerCanTakeDamage := !(hasRecentCollision now player) && !(hasSpawnProtection now player)
    let otherCanTakeDamage := !(hasRecentCollision now entry.2) && !(hasSpawnProtection now entry.2)
    let relativeSpeed := (o.speed player + o.speed entry.2) * (1/2)
    let damage := calculateDamage relativeSpeed
    let live1 := if playerCanTakeDamage && decide (0 < damage) then
        GameStore.damagePlayer live playerId damage now else live
    if otherCanTakeDamage && decide (0 < damage) then
        GameStore.damagePlayer live1 entry.1 damage now else live1
  else live

/-- CollisionService.checkVehicleCollisions (collisionService.ts lines 23-121),
restricted to its effect on the player store (the returned geometric response
vector and the collision sound are rendering concerns outside the store
model). -/
def checkVehicleCollisions (o : Oracle) (now : Int) (s : GameState) (playerId : String) :
    GameState :=
  match s.players.lookup playerId with
  | none => s
  | some player => s.players.foldl (vehicleStep o now playerId player) s

/-- Synthetic tree cooldown key, `tree_x_z` in the source; any injective
rendering of the coordinates serves the model. -/
def treeId (t : Vec3) : String := "tree_" ++ toString t.x ++ "_" ++ toString t.z

/-- hasRecentTreeCollision (collisionService.ts lines 258-272): true inside
the cooldown window; a stale record is lazily deleted and false returned. -/
def hasRecentTreeCollision (now : Int) (cool : List (String × Int)) (tid : String) :
    Bool × List (String × Int) :=
  match cool.lookup tid with
  | none => (false, cool)
  | some ts =>
    if now - ts < COLLISION_COOLDOWN then (true, cool)
    else (false, cool.filter (fun e => e.1 != tid))

/-- Body of the per-tree loop of CollisionService.checkTreeCollisions
(collisionService.ts lines 170-233). -/
def treeStep (now : Int) (playerId : String) (skipDamage : Bool) (playerSpeed : ℚ)
    (playerPos : Vec3) (acc : GameState × List (String × Int)) (t : Vec3) :
    GameState × List (String × Int) :=
  let tid := treeId t
  let rc := hasRecentTreeCollision now acc.2 tid
  if rc.1 then (acc.1, rc.2)
  else if checkTreeCollision playerPos t then
    if !skipDamage then
      let damage := calculateDamage playerSpeed
      if 0 < damage then
        (GameStore.damagePlayer acc.1 playerId damage now, mapSet rc.2 tid now)
      else (acc.1, rc.2)
    else (acc.1, rc.2)
  else (acc.1, rc.2)

/-- CollisionService.checkTreeCollisions (collisionService.ts lines 129-240),
restricted to its effect on the store and the tree-cooldown map. `skipDamage`
(recent collision or spawn protection) and the player speed are computed once
before the loop, as in the source. -/
def checkTreeCollisions (o : Oracle) (now : Int) (s : GameState) (playerId : String)
    (playerPos : Vec3) (trees : List Vec3) (cool : List (String × Int)) :
    GameState × List (String × Int) :=
  match s.players.lookup playerId with
  | none => (s, cool)
  | some player =>
    let skipDamage := hasRecentCollision now player || hasSpawnProtection now player
    let playerSpeed := o.speed player
    trees.foldl (treeStep now playerId skipDamage playerSpeed playerPos) (s, cool)

end Collision

/-! ## Server connection registry (src/server/src/services/playerManager.ts)

Random draws (crypto.randomBytes hex strings, Math.random spawn positions /
rotations / colors) are modelled as explicit inputs: hex draws as a `List
String` entropy stream consumed by the retry loops, the other draws as plain
parameters. `Date.now()` is a `now : Int` parameter. -/

namespace PlayerManager

/-- Server-side Player record (shared player type with health, joinTime and
the optional lastCollision, which the client reports back in updates;
`lastCollision = 0` models the absent key). -/
structure SPlayer where
  id : String
  name : String
  position : Vec3
  rotation : Vec3
  velocity : Vec3
  color : String
  lastUpdate : Int
  health : ℚ
  lastCollision : Int
  joinTime : Int
deriving Repr, DecidableEq

/-- PlayerManager's two fields: the players Map and the usedNames Set. -/
structure State where
  players : List (String × SPlayer)
  usedNames : List String
deriving Repr, DecidableEq

/-- Registry with no players, as built by the constructor. -/
def emptyState : State := { players := [], usedNames := [] }

/-- JavaScript Set.add: no-op when the element is already present, append
otherwise. -/
def jsSetAdd (l : List String) (s : String) : List String :=
  if s ∈ l then l else l ++ [s]

/-- JavaScript Set.delete: removes the element. -/
def jsSetDelete (l : List String) (s : String) : List String :=
  l.filter (fun t => t != s)

/-- Whitespace test backing String.prototype.trim for the characters these
names can carry. -/
def isJsSpace (c : Char) : Bool := c = ' ' || c = '\t' || c = '\n' || c = '\r'

/-- String.prototype.trim: strip leading and trailing whitespace. -/
def jsTrim (s : String) : String :=
  String.mk (((s.data.dropWhile isJsSpace).reverse.dropWhile isJsSpace).reverse)

/-- generateUniquePlayerName (playerManager.ts lines 26-35): draw a hex
string, retry while `Player <hex>` is in usedNames (an exact, case-sensitive
membership test), then reserve and return it. The entropy list supplies the
successive hex draws; the source's unbounded do-while is total here by
recursion on the stream, and the empty-stream fallback is never reached in
this development. -/
def generateUniquePlayerName (used : List String) : List String → String × List String
  | [] => ("", used)
  | hx :: rest =>
    let name := "Player " ++ hx
    if name ∈ used then generateUniquePlayerName used rest
    else (name, jsSetAdd used name)

/-- String.prototype.toLowerCase, character-wise (the names involved are
ASCII, where this agrees with JavaScript). -/
def jsToLower (s : String) : String := String.mk (s.data.map Char.toLower)

/-- Conflict test of ensureUniquePlayerName (playerManager.ts lines 46-64 and
78-89): an exact hit in usedNames, or a case-insensitive hit against any
currently registered player's name. -/
def nameConflict (used : List String) (players : List (String × SPlayer))
    (candidate : String) : Bool :=
  candidate ∈ used || players.any (fun e => jsToLower e.2.name == jsToLower candidate)

/-- Suffix retry loop of ensureUniquePlayerName (playerManager.ts lines
72-93): append `_<hex>` draws until the candidate is conflict-free, then
reserve it. -/
def suffixName (used : List String) (players : List (String × SPlayer))
    (requested : String) : List String → String × List String
  | [] => ("", used)
  | hx :: rest =>
    let uniqueName := requested ++ "_" ++ hx
    if nameConflict used players uniqueName then suffixName used players requested rest
    else (uniqueName, jsSetAdd used uniqueName)

/-- ensureUniquePlayerName (playerManager.ts lines 40-94). -/
def ensureUniquePlayerName (used : List String) (players : List (String × SPlayer))
    (requested : String) (entropy : List String) : String × List String :=
  if jsTrim requested = "" then generateUniquePlayerName used entropy
  else if nameConflict used players requested then suffixName used players requested entropy
  else (requested, jsSetAdd used requested)

/-- addPlayer (playerManager.ts lines 122-140): fresh record with a generated
unique name, the drawn spawn position / rotation / palette color, zero
velocity, full health and joinTime = now. -/
def addPlayer (st : State) (id : String) (now : Int) (entropy : List String)
    (pos rot : Vec3) (color : String) : SPlayer × State :=
  let (nm, used1) := generateUniquePlayerName st.usedNames entropy
  let player : SPlayer :=
    { id := id, name := nm, position := pos, rotation := rot, velocity := Vec3.zero
      color := color, lastUpdate := now, health := 100, lastCollision := 0, joinTime := now }
  (player, { players := mapSet st.players id player, usedNames := used1 })

/-- Partial<Player> on the server side; `none` is an absent key. -/
structure SPlayerUpdate where
  name : Option String
  position : Option Vec3
  rotation : Option Vec3
  velocity : Option Vec3
  color : Option String
  health : Option ℚ
  lastCollision : Option Int
  joinTime : Option Int
deriving Repr, DecidableEq

/-- Update payload with no keys present. -/
def noUpd : SPlayerUpdate := ⟨none, none, none, none, none, none, none, none⟩

/-- Update payload carrying only a name, as the setname handler builds it. -/
def nameUpd (n : String) : SPlayerUpdate := ⟨some n, none, none, none, none, none, none, none⟩

/-- Merge step of updatePlayer: { ...player, ...updates, lastUpdate: now }. -/
def applyUpd (p : SPlayer) (u : SPlayerUpdate) (now : Int) : SPlayer :=
  { p with
    name := u.name.getD p.name
    position := u.position.getD p.position
    rotation := u.rotation.getD p.rotation
    velocity := u.velocity.getD p.velocity
    color := u.color.getD p.color
    health := u.health.getD p.health
    lastCollision := u.lastCollision.getD p.lastCollision
    joinTime := u.joinTime.getD p.joinTime
    lastUpdate := now }

/-- updatePlayer (playerManager.ts lines 142-169). Unknown id: (none, st).
The name special-case runs under the JavaScript truthiness guard
`if (updates.name)`, which is false for an absent key and for the empty
string; the empty string therefore skips the uniqueness machinery entirely
and is merged verbatim (the inner `updates.name.trim() === ''` branch can
only fire for whitespace-only, nonempty names). -/
def updatePlayer (st : State) (id : String) (u : SPlayerUpdate) (now : Int)
    (entropy : List String) : Option SPlayer × State :=
  match st.players.lookup id with
  | none => (none, st)
  | some player =>
    match u.name with
    | some n =>
      if n = "" then
        let merged := applyUpd player u now
        (some merged, { st with players := mapSet st.players id merged })
      else
        let used1 := jsSetDelete st.usedNames player.name
        let resolved :=
          if jsTrim n = "" then generateUniquePlayerName used1 entropy
          else ensureUniquePlayerName used1 st.players (jsTrim n) entropy
        let merged := applyUpd player { u with name := some resolved.1 } now
        (some merged, { players := mapSet st.players id merged, usedNames := resolved.2 })
    | none =>
      let merged := applyUpd player u now
      (some merged, { st with players := mapSet st.players id merged })

/-- getPlayer (playerManager.ts lines 171-173). -/
def getPlayer (st : State) (id : String) : Option SPlayer :=
  st.players.lookup id

/-- respawnPlayer (playerManager.ts lines 178-197): re-rolls position and
rotation, zeroes velocity, restores health to 100 and resets joinTime and
lastUpdate to now; unknown id returns (none, st). -/
def respawnPlayer (st : State) (id : String) (now : Int) (pos rot : Vec3) :
    Option SPlayer × State :=
  match st.players.lookup id with
  | none => (none, st)
  | some player =>
    let updated := { player with
      position := pos, rotation := rot, velocity := Vec3.zero
      health := 100, joinTime := now, lastUpdate := now }
    (some updated, { st with players := mapSet st.players id updated })

/-- removePlayer (playerManager.ts lines 199-206): frees the player's name
from usedNames, deletes the record, and returns whether a record existed. -/
def removePlayer (st : State) (id : String) : Bool × State :=
  match st.players.lookup id with
  | none => (false, st)
  | some player =>
    (true, { players := st.players.filter (fun e => e.1 != id)
             usedNames := jsSetDelete st.usedNames player.name })

end PlayerManager

/-! ## Socket protocol handlers
(src/unnamed/part_003, the current services/socketService.ts, and the earlier
variant src/unnamed/part_002). Each handler maps a registry state and an
inbound message to the new registry state plus the list of broadcast
messages it emits. -/

namespace SocketHandlers

open PlayerManager

/-- Server-to-client broadcasts relevant to the registry handlers. -/
inductive ServerMsg where
  | gameUpdate (playerId : String) (u : SPlayerUpdate)
  | customized (playerId : String) (u : SPlayerUpdate)
  | nameUpdated (playerId : String) (name : String)
  | respawned (playerId : String) (position rotation velocity : Vec3)
      (health : ℚ) (joinTime : Int)
  | playerLeft (playerId : String)
deriving Repr, DecidableEq

/-- player:update handler (part_003 lines 54-61): updates the registry and
broadcasts game:update unconditionally, without checking the sentinel. -/
def handleUpdate (st : State) (sockId : String) (data : SPlayerUpdate) (now : Int)
    (entropy : List String) : State × List ServerMsg :=
  let r := updatePlayer st sockId data now entropy
  (r.2, [ServerMsg.gameUpdate sockId data])

/-- player:setname handler of the current socketService (part_003 lines
73-90): broadcasts only when updatePlayer returned a record, and carries that
record's resolved name. -/
def handleSetName (st : State) (sockId : String) (name : String) (now : Int)
    (entropy : List String) : State × List ServerMsg :=
  let r := updatePlayer st sockId (nameUpd name) now entropy
  match r.1 with
  | some updated => (r.2, [ServerMsg.nameUpdated sockId updated.name])
  | none => (r.2, [])

/-- player:setname handler of the earlier socketService variant (part_002
lines 73-81): updates the registry but broadcasts the requested name
verbatim, unconditionally. -/
def handleSetNameOld (st : State) (sockId : String) (name : String) (now : Int)
    (entropy : List String) : State × List ServerMsg :=
  let r := updatePlayer st sockId (nameUpd name) now entropy
  (r.2, [ServerMsg.nameUpdated sockId name])

/-- player:respawn handler (part_003 lines 93-112): broadcasts the respawned
record's vitals only when the registry knew the connection. -/
def handleRespawn (st : State) (sockId : String) (now : Int) (pos rot : Vec3) :
    State × List ServerMsg :=
  let r := respawnPlayer st sockId now pos rot
  match r.1 with
  | some p =>
    (r.2, [ServerMsg.respawned sockId p.position p.rotation p.velocity p.health p.joinTime])
  | none => (r.2, [])

end SocketHandlers

/-! ## Deterministic world generator

Server side: src/server/src/services/worldGenerator.ts (WorldGenerator). The
claim quantifies over chunk coordinates, so the embedding takes `(chunkX,
chunkZ)` directly (generateChunk's first two lines only recover them from a
world coordinate by flooring). Client side: the Chunk component of
src/client/src/components/game/WorldRenderer.tsx at lines 998 ff., whose
terrain classification draws `seededRandom(x*5000, z*5000)` and whose road
layer is pure arithmetic; the float literals 0.66 and 0.8 of the country-road
draws are embedded as the exact rationals they denote. -/

namespace WorldGen

/-- Building {x, z, height, width, depth}. -/
structure Building where
  x : ℚ
  z : ℚ
  height : ℚ
  width : ℚ
  depth : ℚ
deriving Repr, DecidableEq

/-- Tree {x, z, height, radius}. -/
structure Tree where
  x : ℚ
  z : ℚ
  height : ℚ
  radius : ℚ
deriving Repr, DecidableEq

/-- Road segment {x1, z1, x2, z2, width}. -/
structure Road where
  x1 : ℚ
  z1 : ℚ
  x2 : ℚ
  z2 : ℚ
  width : ℚ
deriving Repr, DecidableEq

/-- Per-chunk scalar seed (worldGenerator.ts line 44). -/
def chunkSeed (seed chunkX chunkZ : Int) : Int :=
  seed + chunkX * 16777259 + chunkZ * 16777213

/-- One step of the server's seeded LCG (worldGenerator.ts lines 163-168);
JavaScript % is truncated remainder, hence Int.tmod. -/
def lcg (s : Int) : Int := (s * 9301 + 49297).tmod 233280

/-- One draw of the seeded generator: the value in [0,1) and the new state. -/
def lcgDraw (s : Int) : ℚ × Int :=
  let s1 := lcg s
  (((s1 : Int) : ℚ) / 233280, s1)

/-- Server city rule (worldGenerator.ts line 49): Manhattan parity of the
chunk coordinates. -/
def serverIsCity (chunkX chunkZ : Int) : Bool :=
  (chunkX.natAbs + chunkZ.natAbs) % 2 == 0

/-- Building loop body of generateBuildings (worldGenerator.ts lines 80-94):
five draws per building. -/
def genBuildingLoop (chunkX chunkZ : Int) : Nat → Int → List Building → List Building × Int
  | 0, s, acc => (acc.reverse, s)
  | n + 1, s, acc =>
    let d1 := lcgDraw s
    let d2 := lcgDraw d1.2
    let d3 := lcgDraw d2.2
    let d4 := lcgDraw d3.2
    let d5 := lcgDraw d4.2
    let b : Building :=
      { x := ((chunkX * 256 + ⌊d1.1 * 256⌋ : Int) : ℚ)
        z := ((chunkZ * 256 + ⌊d2.1 * 256⌋ : Int) : ℚ)
        height := ((⌊d3.1 * 5⌋ + 1 : Int) : ℚ)
        width := ((⌊d4.1 * 5⌋ + 3 : Int) : ℚ)
        depth := ((⌊d5.1 * 5⌋ + 3 : Int) : ℚ) }
    genBuildingLoop chunkX chunkZ n d5.2 (b :: acc)

/-- generateBuildings (worldGenerator.ts lines 75-97): 10 to 30 buildings. -/
def generateBuildings (chunkX chunkZ : Int) (s : Int) : List Building × Int :=
  let d := lcgDraw s
  let count : Int := ⌊d.1 * 20⌋ + 10
  genBuildingLoop chunkX chunkZ count.toNat d.2 []

/-- Tree loop body of generateTrees (worldGenerator.ts lines 104-116): four
draws per tree. -/
def genTreeLoop (chunkX chunkZ : Int) : Nat → Int → List Tree → List Tree × Int
  | 0, s, acc => (acc.reverse, s)
  | n + 1, s, acc =>
    let d1 := lcgDraw s
    let d2 := lcgDraw d1.2
    let d3 := lcgDraw d2.2
    let d4 := lcgDraw d3.2
    let t : Tree :=
      { x := ((chunkX * 256 + ⌊d1.1 * 256⌋ : Int) : ℚ)
        z := ((chunkZ * 256 + ⌊d2.1 * 256⌋ : Int) : ℚ)
        height := ((⌊d3.1 * 2⌋ + 2 : Int) : ℚ)
        radius := ((⌊d4.1 * 2⌋ + 1 : Int) : ℚ) }
    genTreeLoop chunkX chunkZ n d4.2 (t :: acc)

/-- generateTrees (worldGenerator.ts lines 99-119): 20 to 70 trees. -/
def generateTrees (chunkX chunkZ : Int) (s : Int) : List Tree × Int :=
  let d := lcgDraw s
  let count : Int := ⌊d.1 * 50⌋ + 20
  genTreeLoop chunkX chunkZ count.toNat d.2 []

/-- generateRoads (worldGenerator.ts lines 121-160): a 32-unit grid of
width-8 roads for cities (all horizontals, then all verticals), a single
width-8 spine road through the middle otherwise. -/
def serverRoads (chunkX chunkZ : Int) (isCity : Bool) : List Road :=
  if isCity then
    ((List.range 8).map (fun k =>
      { x1 := ((chunkX * 256 : Int) : ℚ)
        z1 := ((chunkZ * 256 + 32 * (k : Int) : Int) : ℚ)
        x2 := ((chunkX * 256 + 256 : Int) : ℚ)
        z2 := ((chunkZ * 256 + 32 * (k : Int) : Int) : ℚ)
        width := 8 })) ++
    ((List.range 8).map (fun k =>
      { x1 := ((chunkX * 256 + 32 * (k : Int) : Int) : ℚ)
        z1 := ((chunkZ * 256 : Int) : ℚ)
        x2 := ((chunkX * 256 + 32 * (k : Int) : Int) : ℚ)
        z2 := ((chunkZ * 256 + 256 : Int) : ℚ)
        width := 8 }))
  else
    [{ x1 := ((chunkX * 256 : Int) : ℚ)
       z1 := ((chunkZ * 256 + 128 : Int) : ℚ)
       x2 := ((chunkX * 256 + 256 : Int) : ℚ)
       z2 := ((chunkZ * 256 + 128 : Int) : ℚ)
       width := 8 }]

/-- Server Chunk record (types/world.ts), terrainHeight being the constant
zero grid of generateTerrainHeight. -/
structure SChunk where
  x : Int
  z : Int
  isCity : Bool
  terrainHeight : List (List ℚ)
  buildings : List Building
  trees : List Tree
  roads : List Road
deriving Repr, DecidableEq

/-- WorldGenerator.generateChunk (worldGenerator.ts lines 39-61) at chunk
coordinates: buildings only for city chunks, trees only for country chunks,
each consuming the fresh seeded generator. -/
def generateChunk (seed chunkX chunkZ : Int) : SChunk :=
  let s0 := chunkSeed seed chunkX chunkZ
  let isCity := serverIsCity chunkX chunkZ
  { x := chunkX
    z := chunkZ
    isCity := isCity
    terrainHeight := List.replicate 256 (List.replicate 256 0)
    buildings := if isCity then (generateBuildings chunkX chunkZ s0).1 else []
    trees := if !isCity then (generateTrees chunkX chunkZ s0).1 else []
    roads := serverRoads chunkX chunkZ isCity }

/-- Client seededRandom (WorldRenderer.tsx lines 937-943 of the cited
version), for a truthy (nonzero) world seed; JavaScript % is truncated
remainder. -/
def clientSeededRandom (worldSeed x z : Int) : ℚ :=
  let dot := x * 12345 + z * 67890
  let s := worldSeed * 16807 + dot
  (((s.tmod 2147483647) : Int) : ℚ) / 2147483647

/-- Client terrain classes of the cited Chunk component. -/
inductive TerrainType where
  | city
  | suburb
  | country
deriving Repr, DecidableEq

/-- Client terrain rule (WorldRenderer.tsx lines 998-1004): one seeded draw
at (x*5000, z*5000); < 0.25 city, < 0.5 suburb, else country. -/
def clientTerrainType (seed chunkX chunkZ : Int) : TerrainType :=
  let terrainRandom := clientSeededRandom seed (chunkX * 5000) (chunkZ * 5000)
  if terrainRandom < 1/4 then TerrainType.city
  else if terrainRandom < 1/2 then TerrainType.suburb
  else TerrainType.country

/-- Client road layer (WorldRenderer.tsx lines 1087-1173): cities get the
32-unit grid with width-10 roads pushed horizontal-then-vertical per step;
suburbs two width-8 mains at one and two thirds plus three seeded cross
streets of width 7; countryside a width-8 spine plus seeded optional
perpendicular (width 6) and diagonal (width 4) roads. -/
def clientRoads (seed chunkX chunkZ : Int) : List Road :=
  match clientTerrainType seed chunkX chunkZ with
  | TerrainType.city =>
    List.flatten ((List.range 8).map (fun k =>
      [{ x1 := ((chunkX * 256 : Int) : ℚ)
         z1 := ((chunkZ * 256 + 32 * (k : Int) : Int) : ℚ)
         x2 := ((chunkX * 256 + 256 : Int) : ℚ)
         z2 := ((chunkZ * 256 + 32 * (k : Int) : Int) : ℚ)
         width := 10 },
       { x1 := ((chunkX * 256 + 32 * (k : Int) : Int) : ℚ)
         z1 := ((chunkZ * 256 : Int) : ℚ)
         x2 := ((chunkX * 256 + 32 * (k : Int) : Int) : ℚ)
         z2 := ((chunkZ * 256 + 256 : Int) : ℚ)
         width := 10 }]))
  | TerrainType.suburb =>
    [{ x1 := ((chunkX * 256 : Int) : ℚ)
       z1 := ((chunkZ * 256 : Int) : ℚ) + 256/3
       x2 := ((chunkX * 256 + 256 : Int) : ℚ)
       z2 := ((chunkZ * 256 : Int) : ℚ) + 256/3
       width := 8 },
     { x1 := ((chunkX * 256 : Int) : ℚ)
       z1 := ((chunkZ * 256 : Int) : ℚ) + 256 * 2/3
       x2 := ((chunkX * 256 + 256 : Int) : ℚ)
       z2 := ((chunkZ * 256 : Int) : ℚ) + 256 * 2/3
       width := 8 }] ++
    ((List.range 3).map (fun i =>
      let offset := clientSeededRandom seed (chunkX * 3000 + (i : Int)) (chunkZ * 3000) * 256 * (8/10) + 256 * (1/10)
      { x1 := ((chunkX * 256 : Int) : ℚ) + offset
        z1 := ((chunkZ * 256 : Int) : ℚ)
        x2 := ((chunkX * 256 : Int) : ℚ) + offset
        z2 := ((chunkZ * 256 + 256 : Int) : ℚ)
        width := 7 }))
  | TerrainType.country =>
    [{ x1 := ((chunkX * 256 : Int) : ℚ)
       z1 := ((chunkZ * 256 + 128 : Int) : ℚ)
       x2 := ((chunkX * 256 + 256 : Int) : ℚ)
       z2 := ((chunkZ * 256 + 128 : Int) : ℚ)
       width := 8 }] ++
    (if clientSeededRandom seed (chunkX * 4000) (chunkZ * 4000) > 66/100 then
      [{ x1 := ((chunkX * 256 + 128 : Int) : ℚ)
         z1 := ((chunkZ * 256 : Int) : ℚ)
         x2 := ((chunkX * 256 + 128 : Int) : ℚ)
         z2 := ((chunkZ * 256 + 256 : Int) : ℚ)
         width := 6 }]
     else []) ++
    (if clientSeededRandom seed (chunkX * 5000) (chunkZ * 5000) > 8/10 then
      [{ x1 := ((chunkX * 256 : Int) : ℚ)
         z1 := ((chunkZ * 256 : Int) : ℚ)
         x2 := ((chunkX * 256 + 256 : Int) : ℚ)
         z2 := ((chunkZ * 256 + 256 : Int) : ℚ)
         width := 4 }]
     else [])

end WorldGen

/-! ## Binary serialization of player updates
(src/shared/utils/serialization.ts). The wire format is modelled at the byte
level: every float component is carried as its IEEE-754 binary32 bit pattern
(a Nat below 2^32, the value after setFloat32's float64-to-float32 rounding)
and the buffer as the list of its bytes. With components already at binary32
precision the round trip is exact, which is what the claim's "within float32
precision" allows. -/

namespace Wire

/-- Three-component vector of binary32 bit patterns. -/
structure Vec3Bits where
  x : Nat
  y : Nat
  z : Nat
deriving Repr, DecidableEq

/-- Well-formedness: each component fits in 32 bits. -/
def wfVec (v : Vec3Bits) : Prop := v.x < 4294967296 ∧ v.y < 4294967296 ∧ v.z < 4294967296

/-- Well-formedness of an optional vector. -/
def wfOpt : Option Vec3Bits → Prop
  | none => True
  | some v => wfVec v

instance (v : Vec3Bits) : Decidable (wfVec v) := by unfold wfVec; infer_instance

instance (o : Option Vec3Bits) : Decidable (wfOpt o) := by
  cases o <;> unfold wfOpt <;> infer_instance

/-- view.setFloat32(offset, value, true): the four bytes of one 32-bit word,
least significant first (little-endian). -/
def bytesOfWord (w : Nat) : List Nat :=
  [w % 256, w / 256 % 256, w / 65536 % 256, w / 16777216 % 256]

/-- serializeVector3: the three components in x, y, z order. -/
def serializeVector3 (v : Vec3Bits) : List Nat :=
  bytesOfWord v.x ++ bytesOfWord v.y ++ bytesOfWord v.z

/-- serializePlayerUpdate (serialization.ts lines 39-90): a flag byte
(bit 0 position, bit 1 rotation, bit 2 velocity) followed by each present
vector as three little-endian 32-bit floats. -/
def serializePlayerUpdate (position rotation velocity : Option Vec3Bits) : List Nat :=
  let flags : Nat := (if position.isSome then 1 else 0) |||
                     (if rotation.isSome then 2 else 0) |||
                     (if velocity.isSome then 4 else 0)
  [flags] ++
  (match position with | some v => serializeVector3 v | none => []) ++
  (match rotation with | some v => serializeVector3 v | none => []) ++
  (match velocity with | some v => serializeVector3 v | none => [])

/-- view.getFloat32(offset, true): reassemble a little-endian 32-bit word
from the next four bytes (a short buffer would throw in the source; the
total fallback 0 is never reached on serialized output). -/
def readWord : List Nat → Nat
  | b0 :: b1 :: b2 :: b3 :: _ => b0 + 256 * b1 + 65536 * b2 + 16777216 * b3
  | _ => 0

/-- deserializeVector3 at the head of a buffer. -/
def readVector3 (l : List Nat) : Vec3Bits :=
  { x := readWord l, y := readWord (l.drop 4), z := readWord (l.drop 8) }

/-- deserializePlayerUpdate (serialization.ts lines 95-144): re-read the flag
byte, then consume three floats per set bit, in position, rotation, velocity
order. -/
def deserializePlayerUpdate (buf : List Nat) :
    Option Vec3Bits × Option Vec3Bits × Option Vec3Bits :=
  match buf with
  | [] => (none, none, none)
  | flags :: rest =>
    let hasPosition := (flags &&& 1) != 0
    let hasRotation := (flags &&& 2) != 0
    let hasVelocity := (flags &&& 4) != 0
    let position := if hasPosition then some (readVector3 rest) else none
    let rest1 := if hasPosition then rest.drop 12 else rest
    let rotation := if hasRotation then some (readVector3 rest1) else none
    let rest2 := if hasRotation then rest1.drop 12 else rest1
    let velocity := if hasVelocity then some (readVector3 rest2) else none
    (position, rotation, velocity)

end Wire

/-! ## Concrete states used by closed theorems and witnesses -/

namespace Examples

open GameStore PlayerManager

/-- Client store holding no players. -/
def emptyStore : GameState :=
  { playerId := none, players := [], worldSeed := none, isConnected := false }

/-- Client-store player at partial health. -/
def cAlice : CPlayer :=
  { id := "a", name := "Alice", position := Vec3.zero, rotation := Vec3.zero
    velocity := Vec3.zero, color := "#FF5252", lastUpdate := 0
    health := some 40, lastCollision := 0, joinTime := 1 }

/-- Client store with one damaged player. -/
def c3Store : GameState :=
  { playerId := some "a", players := [("a", cAlice)], worldSeed := some 42, isConnected := true }

/-- Client-store player whose health is above 100, as an unvalidated server
update can produce. -/
def cOver : CPlayer := { cAlice with id := "o", name := "Overfull", health := some 150 }

/-- Client store holding the over-healthy player. -/
def cOverStore : GameState :=
  { playerId := none, players := [("o", cOver)], worldSeed := none, isConnected := false }

/-- Freshly joined, spawn-protected client-store player. -/
def cFresh : CPlayer := { cAlice with id := "f", name := "Fresh", health := some 100, joinTime := 1 }

/-- Long-joined client-store player scanning for collisions. -/
def cVet : CPlayer :=
  { cAlice with id := "v", name := "Vet", health := some 100, joinTime := -20000 }

/-- Client store with the protected player and the veteran. -/
def cProtStore : GameState :=
  { playerId := some "v", players := [("f", cFresh), ("v", cVet)], worldSeed := some 42
    isConnected := true }

/-- Collision oracle that reports every pair as overlapping at unit speed. -/
def alwaysOracle : Collision.Oracle :=
  { collide := fun _ _ => true, speed := fun _ => 1 }

/-- Server-side registry player. -/
def sAlice : SPlayer :=
  { id := "a", name := "Alice", position := Vec3.zero, rotation := Vec3.zero
    velocity := ⟨1, 0, 0⟩, color := "#FF5252", lastUpdate := 0
    health := 37, lastCollision := 0, joinTime := 1 }

/-- Registry with the one player. -/
def regOne : PlayerManager.State := { players := [("a", sAlice)], usedNames := ["Alice"] }

/-- Second registry player. -/
def sBob : SPlayer := { sAlice with id := "b", name := "Bob" }

/-- Registry with two players, for name-reuse after removal. -/
def c8Reg : PlayerManager.State :=
  { players := [("a", sAlice), ("b", sBob)], usedNames := ["Alice", "Bob"] }

/-- Registry player already holding the contested name. -/
def sRacer : SPlayer := { sAlice with id := "p1", name := "Racer" }

/-- Registry player about to request the contested name. -/
def sSpeedy : SPlayer := { sAlice with id := "p2", name := "Speedy" }

/-- Registry in which the name Racer is taken. -/
def c5Reg : PlayerManager.State :=
  { players := [("p1", sRacer), ("p2", sSpeedy)], usedNames := ["Racer", "Speedy"] }

/-- Registry reached by: addPlayer p1, addPlayer p2, then an updatePlayer with
name set to the empty string for each of the two players. -/
def c2Trace : PlayerManager.State :=
  let a1 := addPlayer emptyState "p1" 0 ["AAAAAA"] Vec3.zero Vec3.zero "#FF5252"
  let a2 := addPlayer a1.2 "p2" 0 ["BBBBBB"] Vec3.zero Vec3.zero "#FF5252"
  let u1 := updatePlayer a2.2 "p1" (nameUpd "") 0 []
  (updatePlayer u1.2 "p2" (nameUpd "") 0 []).2

end Examples

/-! ## Supporting lemmas -/

theorem lookup_mapSet_self {α : Type} (l : List (String × α)) (k : String) (v : α) :
    (mapSet l k v).lookup k = some v := by
  induction l with
  | nil => simp [mapSet, List.lookup]
  | cons e rest ih =>
    by_cases h : e.1 = k
    · simp [mapSet, h, List.lookup]
    · simp only [mapSet, if_neg h, List.lookup]
      have : (k == e.1) = false := by
        simp [beq_iff_eq]
        exact fun hk => h hk.symm
      simp [this, ih]

theorem lookup_mapSet_ne {α : Type} (l : List (String × α)) (k k' : String) (v : α)
    (h : k' ≠ k) : (mapSet l k v).lookup k' = l.lookup k' := by
  induction l with
  | nil =>
    have hb : (k' == k) = false := by simp [beq_iff_eq, h]
    simp [mapSet, List.lookup, hb]
  | cons e rest ih =>
    by_cases he : e.1 = k
    · have hb : (k' == k) = false := by simp [beq_iff_eq, h]
      simp only [mapSet, if_pos he, List.lookup, he, hb]
    · simp only [mapSet, if_neg he, List.lookup]
      by_cases hk : k' = e.1
      · simp [hk]
      · have hb : (k' == e.1) = false := by simp [beq_iff_eq, hk]
        simp [hb, ih]

theorem lookup_append_single {α : Type} (l : List (String × α)) (k : String) (v : α)
    (h : l.lookup k = none) : (l ++ [(k, v)]).lookup k = some v := by
  induction l with
  | nil => simp [List.lookup]
  | cons e rest ih =>
    by_cases hk : k = e.1
    · have hb : (k == e.1) = true := by simp [beq_iff_eq, hk]
      simp only [List.lookup, hb] at h
      exact Option.noConfusion h
    · have hb : (k == e.1) = false := by simp [beq_iff_eq, hk]
      simp only [List.cons_append, List.lookup, hb] at h ⊢
      exact ih h

theorem lookup_filter_self {α : Type} (l : List (String × α)) (k : String) :
    (l.filter (fun e => e.1 != k)).lookup k = none := by
  induction l with
  | nil => rfl
  | cons e rest ih =>
    by_cases he : e.1 = k
    · simp [List.filter, he, ih]
    · have hb : (e.1 != k) = true := by simp [bne_iff_ne, he]
      have hk : (k == e.1) = false := by
        simp [beq_iff_eq]
        exact fun hkk => he hkk.symm
      simp [List.filter, hb, List.lookup, hk, ih]

theorem lookup_filter_ne {α : Type} (l : List (String × α)) (k k' : String)
    (h : k' ≠ k) : (l.filter (fun e => e.1 != k)).lookup k' = l.lookup k' := by
  induction l with
  | nil => rfl
  | cons e rest ih =>
    by_cases he : e.1 = k
    · have hb : (e.1 != k) = false := by simp [bne_iff_ne, he]
      have hk : (k' == e.1) = false := by simp [beq_iff_eq, he, h]
      simp [List.filter, hb, List.lookup, hk, ih]
    · have hb : (e.1 != k) = true := by simp [bne_iff_ne, he]
      by_cases hk : k' = e.1
      · simp [List.filter, hb, List.lookup, hk]
      · have hkb : (k' == e.1) = false := by simp [beq_iff_eq, hk]
        simp [List.filter, hb, List.lookup, hkb, ih]

theorem lookup_eq_of_mem_nodup {α : Type} (l : List (String × α)) (k : String) (v w : α)
    (hnd : (l.map Prod.fst).Nodup) (hl : l.lookup k = some v) (hm : (k, w) ∈ l) : w = v := by
  induction l with
  | nil => cases hm
  | cons e rest ih =>
    rw [List.map_cons, List.nodup_cons] at hnd
    by_cases hk : k = e.1
    · have hb : (k == e.1) = true := by simp [beq_iff_eq, hk]
      simp only [List.lookup, hb] at hl
      rcases List.mem_cons.mp hm with hme | hme
      · have : w = e.2 := congrArg Prod.snd hme
        rw [this]
        exact Option.some.inj hl
      · exfalso
        apply hnd.1
        rw [← hk]
        exact List.mem_map.mpr ⟨(k, w), hme, rfl⟩
    · have hb : (k == e.1) = false := by simp [beq_iff_eq, hk]
      simp only [List.lookup, hb] at hl
      rcases List.mem_cons.mp hm with hme | hme
      · exact absurd (congrArg Prod.fst hme) hk
      · exact ih hnd.2 hl hme

namespace GameStore

theorem healthAt_damage_ne (s : GameState) (id pid : String) (a : ℚ) (now : Int)
    (h : pid ≠ id) : healthAt (damagePlayer s id a now) pid = healthAt s pid := by
  unfold damagePlayer healthAt
  cases hl : s.players.lookup id with
  | none => rfl
  | some p => simp [lookup_mapSet_ne _ _ _ _ h]

end GameStore

namespace Collision

open GameStore

theorem hasSpawnProtection_true (now : Int) (p : CPlayer)
    (hjoin : p.joinTime ≠ 0) (hwin : now - p.joinTime < SPAWN_PROTECTION_TIME) :
    hasSpawnProtection now p = true := by
  simp [hasSpawnProtection, hjoin, hwin]

theorem vehicleStep_healthAt (o : Oracle) (now : Int) (playerId : String) (player : CPlayer)
    (pid : String) (live : GameState) (e : String × CPlayer)
    (hself : pid = playerId → hasSpawnProtection now player = true)
    (hother : e.1 = pid → e.1 ≠ playerId → hasSpawnProtection now e.2 = true) :
    healthAt (vehicleStep o now playerId player live e) pid = healthAt live pid := by
  unfold vehicleStep
  by_cases h1 : e.1 = playerId
  · simp [h1]
  · simp only [if_neg h1]
    by_cases h2 : o.collide player e.2
    · simp only [if_pos h2]
      by_cases hoth : e.1 = pid
      · have hsp : hasSpawnProtection now e.2 = true := hother hoth (by rw [hoth] at h1 ⊢; exact h1)
        simp only [hsp, Bool.not_true, Bool.and_false, Bool.false_and, Bool.false_eq_true,
          if_false]
        by_cases hpp : pid = playerId
        · have hsp2 : hasSpawnProtection now player = true := hself hpp
          simp [hsp2]
        · split
          · exact healthAt_damage_ne _ _ _ _ _ hpp
          · rfl
      · have step2 : ∀ live1 : GameState, healthAt
            (if (!hasRecentCollision now e.2 && !hasSpawnProtection now e.2) &&
                decide (0 < calculateDamage ((o.speed player + o.speed e.2) * (1/2))) then
              GameStore.damagePlayer live1 e.1
                (calculateDamage ((o.speed player + o.speed e.2) * (1/2))) now
            else live1) pid = healthAt live1 pid := by
          intro live1
          split
          · exact healthAt_damage_ne _ _ _ _ _ (fun hq => hoth hq.symm)
          · rfl
        rw [step2]
        by_cases hpp : pid = playerId
        · have hsp2 : hasSpawnProtection now player = true := hself hpp
          simp [hsp2]
        · split
          · exact healthAt_damage_ne _ _ _ _ _ hpp
          · rfl
    · simp [h2]

theorem foldl_vehicleStep_healthAt (o : Oracle) (now : Int) (playerId : String)
    (player : CPlayer) (pid : String) (l : List (String × CPlayer)) (live : GameState)
    (hself : pid = playerId → hasSpawnProtection now player = true)
    (hother : ∀ e ∈ l, e.1 = pid → e.1 ≠ playerId → hasSpawnProtection now e.2 = true) :
    healthAt (l.foldl (vehicleStep o now playerId player) live) pid = healthAt live pid := by
  induction l generalizing live with
  | nil => rfl
  | cons e rest ih =>
    rw [List.foldl_cons]
    rw [ih (vehicleStep o now playerId player live e)
      (fun x hx => hother x (List.mem_cons_of_mem e hx))]
    exact vehicleStep_healthAt o now playerId player pid live e hself
      (hother e (List.mem_cons_self e rest))

theorem treeStep_healthAt (now : Int) (playerId pid : String) (skipDamage : Bool)
    (speed : ℚ) (pos : Vec3) (acc : GameState × List (String × Int)) (t : Vec3)
    (hgate : playerId = pid → skipDamage = true) :
    healthAt (treeStep now playerId skipDamage speed pos acc t).1 pid = healthAt acc.1 pid := by
  simp only [treeStep]
  split_ifs with h1 h2 h3 h4
  · rfl
  · by_cases hpp : playerId = pid
    · rw [hgate hpp] at h3
      simp at h3
    · exact healthAt_damage_ne _ _ _ _ _ (fun hq => hpp hq.symm)
  · rfl
  · rfl
  · rfl

theorem foldl_treeStep_healthAt (now : Int) (playerId pid : String) (skipDamage : Bool)
    (speed : ℚ) (pos : Vec3) (trees : List Vec3) (acc : GameState × List (String × Int))
    (hgate : playerId = pid → skipDamage = true) :
    healthAt (trees.foldl (treeStep now playerId skipDamage speed pos) acc).1 pid =
      healthAt acc.1 pid := by
  induction trees generalizing acc with
  | nil => rfl
  | cons t rest ih =>
    rw [List.foldl_cons, ih]
    exact treeStep_healthAt now playerId pid skipDamage speed pos acc t hgate

end Collision

namespace PlayerManager

theorem not_mem_jsSetDelete_self (l : List String) (s : String) : s ∉ jsSetDelete l s := by
  intro h
  rcases List.mem_filter.mp h with ⟨-, hb⟩
  simp [bne_iff_ne] at hb

theorem mem_of_mem_jsSetDelete (l : List String) (s x : String) (h : x ∈ jsSetDelete l s) :
    x ∈ l := (List.mem_filter.mp h).1

theorem updatePlayer_stores (st : State) (id : String) (u : SPlayerUpdate) (now : Int)
    (entropy : List String) (p' : SPlayer) :
    (updatePlayer st id u now entropy).1 = some p' →
    (updatePlayer st id u now entropy).2.players.lookup id = some p' := by
  unfold updatePlayer
  cases hl : st.players.lookup id with
  | none => intro h; exact Option.noConfusion h
  | some player =>
    cases hn : u.name with
    | none =>
      intro h
      rw [← Option.some.inj h]
      exact lookup_mapSet_self _ _ _
    | some n =>
      by_cases hz : n = ""
      · intro h
        simp only [if_pos hz] at h ⊢
        rw [← Option.some.inj h]
        exact lookup_mapSet_self _ _ _
      · intro h
        simp only [if_neg hz] at h ⊢
        rw [← Option.some.inj h]
        exact lookup_mapSet_self _ _ _

theorem ensureUnique_of_free (used : List String) (players : List (String × SPlayer))
    (nm : String) (entropy : List String)
    (htrim : jsTrim nm = nm) (hnm : nm ≠ "")
    (hused : nm ∉ used)
    (hplayers : ∀ e ∈ players, jsToLower e.2.name ≠ jsToLower nm) :
    ensureUniquePlayerName used players nm entropy = (nm, jsSetAdd used nm) := by
  have hany : players.any (fun e => jsToLower e.2.name == jsToLower nm) = false := by
    rw [List.any_eq_false]
    intro e he
    simp only [beq_iff_eq]
    exact hplayers e he
  have hconf : nameConflict used players nm = false := by
    simp [nameConflict, hused, hany]
  unfold ensureUniquePlayerName
  rw [htrim, if_neg hnm, hconf]
  simp

end PlayerManager

namespace Wire

theorem readWord_bytes (w : Nat) (hw : w < 4294967296) (rest : List Nat) :
    readWord (bytesOfWord w ++ rest) = w := by
  show w % 256 + 256 * (w / 256 % 256) + 65536 * (w / 65536 % 256) +
      16777216 * (w / 16777216 % 256) = w
  omega

theorem drop4_bytes (w : Nat) (rest : List Nat) : (bytesOfWord w ++ rest).drop 4 = rest := rfl

theorem drop12_vec (v : Vec3Bits) (rest : List Nat) :
    (serializeVector3 v ++ rest).drop 12 = rest := rfl

theorem readVector3_bytes (v : Vec3Bits) (hv : wfVec v) (rest : List Nat) :
    readVector3 (serializeVector3 v ++ rest) = v := by
  obtain ⟨h1, h2, h3⟩ := hv
  have e1 : readWord (serializeVector3 v ++ rest) = v.x := by
    show readWord (bytesOfWord v.x ++ (bytesOfWord v.y ++ (bytesOfWord v.z ++ rest))) = v.x
    exact readWord_bytes v.x h1 _
  have e2 : readWord ((serializeVector3 v ++ rest).drop 4) = v.y := by
    show readWord (bytesOfWord v.y ++ (bytesOfWord v.z ++ rest)) = v.y
    exact readWord_bytes v.y h2 _
  have e3 : readWord ((serializeVector3 v ++ rest).drop 8) = v.z := by
    show readWord (bytesOfWord v.z ++ rest) = v.z
    exact readWord_bytes v.z h3 _
  unfold readVector3
  rw [e1, e2, e3]

theorem readVector3_serialized (v : Vec3Bits) (hv : wfVec v) :
    readVector3 (serializeVector3 v) = v := by
  have h := readVector3_bytes v hv []
  rwa [List.append_nil] at h

theorem deserialize_flags1 (L : List Nat) :
    deserializePlayerUpdate (1 :: L) = (some (readVector3 L), none, none) := rfl

theorem deserialize_flags2 (L : List Nat) :
    deserializePlayerUpdate (2 :: L) = (none, some (readVector3 L), none) := rfl

theorem deserialize_flags3 (L : List Nat) :
    deserializePlayerUpdate (3 :: L) =
      (some (readVector3 L), some (readVector3 (L.drop 12)), none) := rfl

theorem deserialize_flags4 (L : List Nat) :
    deserializePlayerUpdate (4 :: L) = (none, none, some (readVector3 L)) := rfl

theorem deserialize_flags5 (L : List Nat) :
    deserializePlayerUpdate (5 :: L) =
      (some (readVector3 L), none, some (readVector3 (L.drop 12))) := rfl

theorem deserialize_flags6 (L : List Nat) :
    deserializePlayerUpdate (6 :: L) =
      (none, some (readVector3 L), some (readVector3 (L.drop 12))) := rfl

theorem deserialize_flags7 (L : List Nat) :
    deserializePlayerUpdate (7 :: L) =
      (some (readVector3 L), some (readVector3 (L.drop 12)),
       some (readVector3 ((L.drop 12).drop 12))) := rfl

end Wire

/-! ## Claim theorems -/

/-- Claim C10: for an id absent from the client store, damagePlayer and
resetHealth leave the entire store state unchanged, while updatePlayer creates
a default-initialized entry (the defaults overlaid with the update). -/
theorem c10_absent_id_behavior (s : GameStore.GameState) (id : String) (amount : ℚ)
    (now : Int) (u : GameStore.CPlayerUpdate)
    (h : s.players.lookup id = none) :
    GameStore.damagePlayer s id amount now = s
    ∧ GameStore.resetHealth s id = s
    ∧ (GameStore.updatePlayer s id u now).players.lookup id =
        some (GameStore.applyUpdate (GameStore.defaultCPlayer id now) u) := by
  refine ⟨?_, ?_, ?_⟩
  · unfold GameStore.damagePlayer
    rw [h]
  · unfold GameStore.resetHealth
    rw [h]
  · unfold GameStore.updatePlayer
    rw [h]
    exact lookup_append_single s.players id _ h

/-- Witness for C10 at the empty store. -/
theorem c10_absent_id_behavior_witness :
    Examples.emptyStore.players.lookup "z" = none
    ∧ (GameStore.damagePlayer Examples.emptyStore "z" 5 3 = Examples.emptyStore
       ∧ GameStore.resetHealth Examples.emptyStore "z" = Examples.emptyStore
       ∧ (GameStore.updatePlayer Examples.emptyStore "z" GameStore.noUpdate 3).players.lookup "z" =
           some (GameStore.applyUpdate (GameStore.defaultCPlayer "z" 3) GameStore.noUpdate)) :=
  ⟨rfl, c10_absent_id_behavior Examples.emptyStore "z" 5 3 GameStore.noUpdate rfl⟩

/-- Claim C3 (amended): damagePlayer sets the player's health to
max(0, h − d), reading a NaN (or missing) prior health as 100, stamps
lastCollision, and the result is a real number (never NaN) that is
nonnegative; it is at most 100 whenever the prior health was NaN or at most
100 (a prior health above 100 — reachable because merges are unvalidated — is
not clamped down, which is the corrected part of the claim). -/
theorem c3_damage_result (s : GameStore.GameState) (id : String) (p : GameStore.CPlayer)
    (d : ℚ) (now : Int)
    (hp : s.players.lookup id = some p) (hd : 0 ≤ d) :
    (GameStore.damagePlayer s id d now).players.lookup id =
      some { p with health := some (max 0 (GameStore.jsHealth p.health - d))
                    lastCollision := now }
    ∧ 0 ≤ max 0 (GameStore.jsHealth p.health - d)
    ∧ (GameStore.jsHealth p.health ≤ 100 → max 0 (GameStore.jsHealth p.health - d) ≤ 100) := by
  refine ⟨?_, le_max_left 0 _, fun hh => ?_⟩
  · unfold GameStore.damagePlayer
    rw [hp]
    exact lookup_mapSet_self _ _ _
  · exact max_le (by norm_num) (by linarith)

/-- Witness for C3 at a player with health 40 hit for 30. -/
theorem c3_damage_result_witness :
    (Examples.c3Store.players.lookup "a" = some Examples.cAlice ∧ (0 : ℚ) ≤ 30)
    ∧ ((GameStore.damagePlayer Examples.c3Store "a" 30 7).players.lookup "a" =
        some { Examples.cAlice with
                 health := some (max 0 (GameStore.jsHealth Examples.cAlice.health - 30))
                 lastCollision := 7 }
       ∧ 0 ≤ max 0 (GameStore.jsHealth Examples.cAlice.health - 30)
       ∧ (GameStore.jsHealth Examples.cAlice.health ≤ 100 →
            max 0 (GameStore.jsHealth Examples.cAlice.health - 30) ≤ 100)) :=
  ⟨⟨rfl, by norm_num⟩,
    c3_damage_result Examples.c3Store "a" Examples.cAlice 30 7 rfl (by norm_num)⟩

/-- Counterexample to C3 as stated: a stored health of 150 (d = 0) yields 150,
outside [0,100]. -/
theorem c3_health_counterexample :
    GameStore.healthAt (GameStore.damagePlayer Examples.cOverStore "o" 0 9) "o" =
      some (some 150)
    ∧ ¬ ((150 : ℚ) ≤ 100) := by
  constructor
  · have hl : Examples.cOverStore.players.lookup "o" = some Examples.cOver := rfl
    unfold GameStore.damagePlayer GameStore.healthAt
    rw [hl]
    rw [lookup_mapSet_self]
    have hov : GameStore.jsHealth Examples.cOver.health = 150 := rfl
    simp [hov]
  · norm_num

/-- Claim C7: respawnPlayer on a registered connection returns the record with
health 100, zero velocity, joinTime equal to the call time, and the re-rolled
position and rotation; on an unknown connection it returns none. -/
theorem c7_respawn_spec (st : PlayerManager.State) (id : String) (now : Int)
    (pos rot : Vec3) :
    (∀ p, st.players.lookup id = some p →
      (PlayerManager.respawnPlayer st id now pos rot).1 =
        some { p with position := pos, rotation := rot, velocity := Vec3.zero
                      health := 100, joinTime := now, lastUpdate := now })
    ∧ (st.players.lookup id = none →
        (PlayerManager.respawnPlayer st id now pos rot).1 = none) := by
  constructor
  · intro p hp
    unfold PlayerManager.respawnPlayer
    rw [hp]
  · intro h
    unfold PlayerManager.respawnPlayer
    rw [h]

/-- Witness for C7 on a one-player registry and an unknown id. -/
theorem c7_respawn_spec_witness :
    (Examples.regOne.players.lookup "a" = some Examples.sAlice
     ∧ (PlayerManager.respawnPlayer Examples.regOne "a" 99 ⟨5, 0, 6⟩ ⟨0, 1, 0⟩).1 =
        some { Examples.sAlice with position := ⟨5, 0, 6⟩, rotation := ⟨0, 1, 0⟩
                                    velocity := Vec3.zero, health := 100
                                    joinTime := 99, lastUpdate := 99 })
    ∧ (Examples.regOne.players.lookup "zz" = none
       ∧ (PlayerManager.respawnPlayer Examples.regOne "zz" 99 ⟨5, 0, 6⟩ ⟨0, 1, 0⟩).1 = none) :=
  ⟨⟨rfl, (c7_respawn_spec Examples.regOne "a" 99 ⟨5, 0, 6⟩ ⟨0, 1, 0⟩).1 Examples.sAlice rfl⟩,
   ⟨rfl, (c7_respawn_spec Examples.regOne "zz" 99 ⟨5, 0, 6⟩ ⟨0, 1, 0⟩).2 rfl⟩⟩

/-- Claim C6 (amended): registry operations on an unknown connection id are
silent no-ops returning the null/false sentinel and leave the state unchanged,
and the setname and respawn handlers check the sentinel and emit nothing —
but the player:update handler broadcasts unconditionally, which is the
corrected part (see the counterexample). -/
theorem c6_unknown_connection (st : PlayerManager.State) (id nm : String)
    (u : PlayerManager.SPlayerUpdate) (now : Int) (entropy : List String) (pos rot : Vec3)
    (h : st.players.lookup id = none) :
    PlayerManager.updatePlayer st id u now entropy = (none, st)
    ∧ PlayerManager.respawnPlayer st id now pos rot = (none, st)
    ∧ PlayerManager.removePlayer st id = (false, st)
    ∧ SocketHandlers.handleSetName st id nm now entropy = (st, [])
    ∧ SocketHandlers.handleRespawn st id now pos rot = (st, []) := by
  refine ⟨?_, ?_, ?_, ?_, ?_⟩
  · unfold PlayerManager.updatePlayer
    rw [h]
  · unfold PlayerManager.respawnPlayer
    rw [h]
  · unfold PlayerManager.removePlayer
    rw [h]
  · unfold SocketHandlers.handleSetName PlayerManager.updatePlayer
    rw [h]
  · unfold SocketHandlers.handleRespawn PlayerManager.respawnPlayer
    rw [h]

/-- Witness for C6 at a one-player registry and the id ghost. -/
theorem c6_unknown_connection_witness :
    Examples.regOne.players.lookup "ghost" = none
    ∧ (PlayerManager.updatePlayer Examples.regOne "ghost" PlayerManager.noUpd 4 [] =
        (none, Examples.regOne)
       ∧ PlayerManager.respawnPlayer Examples.regOne "ghost" 4 Vec3.zero Vec3.zero =
        (none, Examples.regOne)
       ∧ PlayerManager.removePlayer Examples.regOne "ghost" = (false, Examples.regOne)
       ∧ SocketHandlers.handleSetName Examples.regOne "ghost" "Neo" 4 [] =
        (Examples.regOne, [])
       ∧ SocketHandlers.handleRespawn Examples.regOne "ghost" 4 Vec3.zero Vec3.zero =
        (Examples.regOne, [])) :=
  ⟨rfl, c6_unknown_connection Examples.regOne "ghost" "Neo" PlayerManager.noUpd 4 []
    Vec3.zero Vec3.zero rfl⟩

/-- Counterexample to C6 as stated: the player:update handler broadcasts
game:update for an unknown connection, without checking the sentinel. -/
theorem c6_update_broadcast_counterexample :
    PlayerManager.emptyState.players.lookup "ghost" = none
    ∧ SocketHandlers.handleUpdate PlayerManager.emptyState "ghost" PlayerManager.noUpd 0 [] =
        (PlayerManager.emptyState,
         [SocketHandlers.ServerMsg.gameUpdate "ghost" PlayerManager.noUpd])
    ∧ [SocketHandlers.ServerMsg.gameUpdate "ghost" PlayerManager.noUpd] ≠
        ([] : List SocketHandlers.ServerMsg) := by
  refine ⟨rfl, rfl, by simp⟩

/-- Claim C5 (amended): the current setname handler broadcasts exactly the
name the registry stored after uniqueness resolution; the earlier handler
variant broadcast the requested name verbatim, which is the corrected part
(see the counterexample). -/
theorem c5_effective_name_broadcast (st : PlayerManager.State) (id nm : String) (now : Int)
    (entropy : List String) (p' : PlayerManager.SPlayer)
    (h : (PlayerManager.updatePlayer st id (PlayerManager.nameUpd nm) now entropy).1 = some p') :
    SocketHandlers.handleSetName st id nm now entropy =
      ((PlayerManager.updatePlayer st id (PlayerManager.nameUpd nm) now entropy).2,
        [SocketHandlers.ServerMsg.nameUpdated id p'.name])
    ∧ (SocketHandlers.handleSetName st id nm now entropy).1.players.lookup id = some p' := by
  have hstore := PlayerManager.updatePlayer_stores st id (PlayerManager.nameUpd nm) now entropy p' h
  constructor
  · simp only [SocketHandlers.handleSetName]
    rw [h]
  · simp only [SocketHandlers.handleSetName]
    rw [h]
    exact hstore

/-- Witness for C5: the player a renames to the fresh name Neo. -/
theorem c5_effective_name_broadcast_witness :
    ((PlayerManager.updatePlayer Examples.regOne "a" (PlayerManager.nameUpd "Neo") 7 []).1 =
      some { Examples.sAlice with name := "Neo", lastUpdate := 7 })
    ∧ (SocketHandlers.handleSetName Examples.regOne "a" "Neo" 7 [] =
        ((PlayerManager.updatePlayer Examples.regOne "a" (PlayerManager.nameUpd "Neo") 7 []).2,
          [SocketHandlers.ServerMsg.nameUpdated "a" "Neo"])
       ∧ (SocketHandlers.handleSetName Examples.regOne "a" "Neo" 7 []).1.players.lookup "a" =
          some { Examples.sAlice with name := "Neo", lastUpdate := 7 }) :=
  ⟨by decide,
   c5_effective_name_broadcast Examples.regOne "a" "Neo" 7 []
     { Examples.sAlice with name := "Neo", lastUpdate := 7 } (by decide)⟩

/-- Counterexample to C5 as stated: the earlier setname handler stores the
resolved name Racer_AB12 but broadcasts the requested name Racer. -/
theorem c5_requested_name_counterexample :
    ((SocketHandlers.handleSetNameOld Examples.c5Reg "p2" "Racer" 5 ["AB12"]).1.players.lookup
        "p2").map PlayerManager.SPlayer.name = some "Racer_AB12"
    ∧ (SocketHandlers.handleSetNameOld Examples.c5Reg "p2" "Racer" 5 ["AB12"]).2 =
        [SocketHandlers.ServerMsg.nameUpdated "p2" "Racer"]
    ∧ "Racer" ≠ "Racer_AB12" := by
  refine ⟨by decide, by decide, by decide⟩

/-- Claim C8: removing a registered connection returns true then false, makes
getPlayer return nothing, and frees the removed player's name, so that a
subsequent updatePlayer requesting that name (when no other current player
holds it case-insensitively) is assigned it verbatim, without suffixing. -/
theorem c8_remove_frees_name (st : PlayerManager.State) (id idB : String)
    (p q : PlayerManager.SPlayer) (now : Int) (entropy : List String)
    (hp : st.players.lookup id = some p)
    (hq : st.players.lookup idB = some q)
    (hne : idB ≠ id)
    (hnm : p.name ≠ "")
    (htrim : PlayerManager.jsTrim p.name = p.name)
    (hfree : ∀ e ∈ st.players, e.1 ≠ id →
      PlayerManager.jsToLower e.2.name ≠ PlayerManager.jsToLower p.name) :
    (PlayerManager.removePlayer st id).1 = true
    ∧ PlayerManager.getPlayer (PlayerManager.removePlayer st id).2 id = none
    ∧ (PlayerManager.removePlayer (PlayerManager.removePlayer st id).2 id).1 = false
    ∧ ((PlayerManager.updatePlayer (PlayerManager.removePlayer st id).2 idB
          (PlayerManager.nameUpd p.name) now entropy).1.map PlayerManager.SPlayer.name) =
        some p.name := by
  have hrm : PlayerManager.removePlayer st id =
      (true, { players := st.players.filter (fun e => e.1 != id)
               usedNames := PlayerManager.jsSetDelete st.usedNames p.name }) := by
    unfold PlayerManager.removePlayer
    rw [hp]
  have hlookB : (st.players.filter (fun e => e.1 != id)).lookup idB = some q := by
    rw [lookup_filter_ne st.players id idB hne]
    exact hq
  have hused1 : p.name ∉ PlayerManager.jsSetDelete
      (PlayerManager.jsSetDelete st.usedNames p.name) q.name := by
    intro hmem
    exact PlayerManager.not_mem_jsSetDelete_self _ _
      (PlayerManager.mem_of_mem_jsSetDelete _ _ _ hmem)
  have hfree1 : ∀ e ∈ st.players.filter (fun e => e.1 != id),
      PlayerManager.jsToLower e.2.name ≠ PlayerManager.jsToLower p.name := by
    intro e he
    rcases List.mem_filter.mp he with ⟨heSt, hene⟩
    exact hfree e heSt (by simpa [bne_iff_ne] using hene)
  have hens := PlayerManager.ensureUnique_of_free
    (PlayerManager.jsSetDelete (PlayerManager.jsSetDelete st.usedNames p.name) q.name)
    (st.players.filter (fun e => e.1 != id)) p.name entropy htrim hnm hused1 hfree1
  refine ⟨by rw [hrm], ?_, ?_, ?_⟩
  · rw [hrm]
    exact lookup_filter_self st.players id
  · rw [hrm]
    unfold PlayerManager.removePlayer
    rw [lookup_filter_self st.players id]
  · rw [hrm]
    unfold PlayerManager.updatePlayer
    rw [hlookB]
    simp only [PlayerManager.nameUpd]
    rw [if_neg hnm, htrim, if_neg hnm, hens]
    simp [PlayerManager.applyUpd]

/-- Witness for C8: Alice is removed and the name Alice is immediately granted
to Bob verbatim. -/
theorem c8_remove_frees_name_witness :
    (Examples.c8Reg.players.lookup "a" = some Examples.sAlice
     ∧ Examples.c8Reg.players.lookup "b" = some Examples.sBob
     ∧ "b" ≠ "a"
     ∧ Examples.sAlice.name ≠ ""
     ∧ PlayerManager.jsTrim Examples.sAlice.name = Examples.sAlice.name
     ∧ (∀ e ∈ Examples.c8Reg.players, e.1 ≠ "a" →
          PlayerManager.jsToLower e.2.name ≠ PlayerManager.jsToLower Examples.sAlice.name))
    ∧ ((PlayerManager.removePlayer Examples.c8Reg "a").1 = true
       ∧ PlayerManager.getPlayer (PlayerManager.removePlayer Examples.c8Reg "a").2 "a" = none
       ∧ (PlayerManager.removePlayer (PlayerManager.removePlayer Examples.c8Reg "a").2 "a").1 =
          false
       ∧ ((PlayerManager.updatePlayer (PlayerManager.removePlayer Examples.c8Reg "a").2 "b"
            (PlayerManager.nameUpd Examples.sAlice.name) 11 []).1.map
              PlayerManager.SPlayer.name) = some Examples.sAlice.name) :=
  ⟨⟨rfl, rfl, by decide, by decide, by decide, by decide⟩,
   c8_remove_frees_name Examples.c8Reg "a" "b" Examples.sAlice Examples.sBob 11 []
     rfl rfl (by decide) (by decide) (by decide) (by decide)⟩

/-- Claim C2 (refuted, code bug): after addPlayer p1, addPlayer p2 and an
updatePlayer carrying the empty string as name for each, both registered
players end with the identical (hence case-insensitively equal) name: the
JavaScript truthiness guard `if (updates.name)` is false for "", so the
uniqueness machinery — including its own dead empty-name branch — is skipped
and the raw empty name is merged. -/
theorem c2_empty_name_collision :
    ((Examples.c2Trace.players.lookup "p1").map PlayerManager.SPlayer.name) = some ""
    ∧ ((Examples.c2Trace.players.lookup "p2").map PlayerManager.SPlayer.name) = some ""
    ∧ ("p1" : String) ≠ "p2" := by
  refine ⟨by decide, by decide, by decide⟩

/-- Claim C1 (refuted, code bug): at world seed 42 and chunk (1, 0) the
server's Manhattan-parity rule classifies the chunk as countryside while the
client's seeded-draw rule classifies it as a city, and the two road layers
disagree (a single spine road versus a 16-road grid), so the two generators do
not produce the same chunk. -/
theorem c1_generator_divergence :
    (WorldGen.generateChunk 42 1 0).isCity = false
    ∧ WorldGen.clientTerrainType 42 1 0 = WorldGen.TerrainType.city
    ∧ (WorldGen.generateChunk 42 1 0).roads ≠ WorldGen.clientRoads 42 1 0 := by
  have hsr : WorldGen.clientSeededRandom 42 (1 * 5000) (0 * 5000) =
      ((((42 * 16807 + ((1 * 5000) * 12345 + (0 * 5000) * 67890) : Int).tmod
          2147483647) : Int) : ℚ) / 2147483647 := rfl
  have hm : ((42 * 16807 + ((1 * 5000) * 12345 + (0 * 5000) * 67890) : Int).tmod
      2147483647) = 62430894 := by decide
  have hcity : WorldGen.clientTerrainType 42 1 0 = WorldGen.TerrainType.city := by
    unfold WorldGen.clientTerrainType
    rw [hsr, hm]
    rw [if_pos (by norm_num : (((62430894 : Int) : ℚ)) / 2147483647 < 1 / 4)]
  refine ⟨by decide, hcity, ?_⟩
  intro heq
  have hlen := congrArg List.length heq
  have hserver : (WorldGen.generateChunk 42 1 0).roads.length = 1 := rfl
  have hclient : (WorldGen.clientRoads 42 1 0).length = 16 := by
    unfold WorldGen.clientRoads
    rw [hcity]
    rfl
  rw [hserver, hclient] at hlen
  exact absurd hlen (by decide)

/-- Claim C4: a player whose joinTime is nonzero and less than
SPAWN_PROTECTION_TIME before the current instant takes zero damage from the
collision resolver — their stored health is unchanged by any vehicle-vehicle
scan (whoever the scanning player is) and by any vehicle-tree scan, regardless
of collision-cooldown state and for every geometry/speed oracle: the
protection test is a hard gate in front of every damagePlayer call. -/
theorem c4_spawn_protection (o : Collision.Oracle) (now : Int) (s : GameStore.GameState)
    (pid : String) (p : GameStore.CPlayer)
    (hnd : (s.players.map Prod.fst).Nodup)
    (hp : s.players.lookup pid = some p)
    (hjoin : p.joinTime ≠ 0)
    (hwin : now - p.joinTime < Collision.SPAWN_PROTECTION_TIME) :
    (∀ scanId, GameStore.healthAt (Collision.checkVehicleCollisions o now s scanId) pid =
        GameStore.healthAt s pid)
    ∧ (∀ scanId pos trees cool,
        GameStore.healthAt (Collision.checkTreeCollisions o now s scanId pos trees cool).1 pid =
          GameStore.healthAt s pid) := by
  have hprot := Collision.hasSpawnProtection_true now p hjoin hwin
  constructor
  · intro scanId
    unfold Collision.checkVehicleCollisions
    cases hl : s.players.lookup scanId with
    | none => rfl
    | some player =>
      apply Collision.foldl_vehicleStep_healthAt
      · intro hpe
        have hp2 := hp
        rw [hpe] at hp2
        have hpp : player = p := Option.some.inj (hl.symm.trans hp2)
        rw [hpp]
        exact hprot
      · intro e he hepid hne
        obtain ⟨e1, e2⟩ := e
        simp only at hepid hne ⊢
        have hm : (pid, e2) ∈ s.players := by
          rw [← hepid]
          exact he
        have he2 : e2 = p := lookup_eq_of_mem_nodup s.players pid p e2 hnd hp hm
        rw [he2]
        exact hprot
  · intro scanId pos trees cool
    unfold Collision.checkTreeCollisions
    cases hl : s.players.lookup scanId with
    | none => rfl
    | some player =>
      apply Collision.foldl_treeStep_healthAt
      intro hpe
      have hp2 := hp
      rw [← hpe] at hp2
      have hpp : player = p := Option.some.inj (hl.symm.trans hp2)
      rw [hpp, hprot, Bool.or_true]

/-- Witness for C4: a freshly joined player keeps full health through a
vehicle scan by another player and a tree scan of their own. -/
theorem c4_spawn_protection_witness :
    ((Examples.cProtStore.players.map Prod.fst).Nodup
     ∧ Examples.cProtStore.players.lookup "f" = some Examples.cFresh
     ∧ Examples.cFresh.joinTime ≠ 0
     ∧ (5000 : Int) - Examples.cFresh.joinTime < Collision.SPAWN_PROTECTION_TIME)
    ∧ GameStore.healthAt (Collision.checkVehicleCollisions Examples.alwaysOracle 5000
        Examples.cProtStore "v") "f" = GameStore.healthAt Examples.cProtStore "f"
    ∧ GameStore.healthAt (Collision.checkTreeCollisions Examples.alwaysOracle 5000
        Examples.cProtStore "f" Vec3.zero [Vec3.zero] []).1 "f" =
        GameStore.healthAt Examples.cProtStore "f" :=
  ⟨⟨by decide, rfl, by decide, by decide⟩,
   (c4_spawn_protection Examples.alwaysOracle 5000 Examples.cProtStore "f" Examples.cFresh
      (by decide) rfl (by decide) (by decide)).1 "v",
   (c4_spawn_protection Examples.alwaysOracle 5000 Examples.cProtStore "f" Examples.cFresh
      (by decide) rfl (by decide) (by decide)).2 "f" Vec3.zero [Vec3.zero] []⟩

/-- Claim C9: deserializing a serialized PlayerUpdate returns exactly the
present vectors (absent ones come back as none) with the same binary32
components, and the leading flag byte carries position presence on bit 0,
rotation on bit 1 and velocity on bit 2, with each present vector following
as three little-endian 32-bit words. -/
theorem c9_roundtrip (p r v : Option Wire.Vec3Bits)
    (hp : Wire.wfOpt p) (hr : Wire.wfOpt r) (hv : Wire.wfOpt v) :
    Wire.deserializePlayerUpdate (Wire.serializePlayerUpdate p r v) = (p, r, v)
    ∧ (Wire.serializePlayerUpdate p r v).headI.testBit 0 = p.isSome
    ∧ (Wire.serializePlayerUpdate p r v).headI.testBit 1 = r.isSome
    ∧ (Wire.serializePlayerUpdate p r v).headI.testBit 2 = v.isSome := by
  rcases p with _ | a <;> rcases r with _ | b <;> rcases v with _ | c
  · exact ⟨rfl, by decide, by decide, by decide⟩
  · have hc : Wire.wfVec c := hv
    have hser : Wire.serializePlayerUpdate none none (some c) =
        4 :: Wire.serializeVector3 c := by
      simp [Wire.serializePlayerUpdate]
    refine ⟨?_, ?_, ?_, ?_⟩ <;> rw [hser]
    · rw [Wire.deserialize_flags4, Wire.readVector3_serialized c hc]
    all_goals simp <;> decide
  · have hb : Wire.wfVec b := hr
    have hser : Wire.serializePlayerUpdate none (some b) none =
        2 :: Wire.serializeVector3 b := by
      simp [Wire.serializePlayerUpdate]
    refine ⟨?_, ?_, ?_, ?_⟩ <;> rw [hser]
    · rw [Wire.deserialize_flags2, Wire.readVector3_serialized b hb]
    all_goals simp <;> decide
  · have hb : Wire.wfVec b := hr
    have hc : Wire.wfVec c := hv
    have hser : Wire.serializePlayerUpdate none (some b) (some c) =
        6 :: (Wire.serializeVector3 b ++ Wire.serializeVector3 c) := by
      simp [Wire.serializePlayerUpdate]
    refine ⟨?_, ?_, ?_, ?_⟩ <;> rw [hser]
    · rw [Wire.deserialize_flags6, Wire.readVector3_bytes b hb, Wire.drop12_vec,
        Wire.readVector3_serialized c hc]
    all_goals simp <;> decide
  · have ha : Wire.wfVec a := hp
    have hser : Wire.serializePlayerUpdate (some a) none none =
        1 :: Wire.serializeVector3 a := by
      simp [Wire.serializePlayerUpdate]
    refine ⟨?_, ?_, ?_, ?_⟩ <;> rw [hser]
    · rw [Wire.deserialize_flags1, Wire.readVector3_serialized a ha]
    all_goals simp <;> decide
  · have ha : Wire.wfVec a := hp
    have hc : Wire.wfVec c := hv
    have hser : Wire.serializePlayerUpdate (some a) none (some c) =
        5 :: (Wire.serializeVector3 a ++ Wire.serializeVector3 c) := by
      simp [Wire.serializePlayerUpdate]
    refine ⟨?_, ?_, ?_, ?_⟩ <;> rw [hser]
    · rw [Wire.deserialize_flags5, Wire.readVector3_bytes a ha, Wire.drop12_vec,
        Wire.readVector3_serialized c hc]
    all_goals simp <;> decide
  · have ha : Wire.wfVec a := hp
    have hb : Wire.wfVec b := hr
    have hser : Wire.serializePlayerUpdate (some a) (some b) none =
        3 :: (Wire.serializeVector3 a ++ Wire.serializeVector3 b) := by
      simp [Wire.serializePlayerUpdate]
    refine ⟨?_, ?_, ?_, ?_⟩ <;> rw [hser]
    · rw [Wire.deserialize_flags3, Wire.readVector3_bytes a ha, Wire.drop12_vec,
        Wire.readVector3_serialized b hb]
    all_goals simp <;> decide
  · have ha : Wire.wfVec a := hp
    have hb : Wire.wfVec b := hr
    have hc : Wire.wfVec c := hv
    have hser : Wire.serializePlayerUpdate (some a) (some b) (some c) =
        7 :: (Wire.serializeVector3 a ++ (Wire.serializeVector3 b ++ Wire.serializeVector3 c)) := by
      simp [Wire.serializePlayerUpdate]
    refine ⟨?_, ?_, ?_, ?_⟩ <;> rw [hser]
    · rw [Wire.deserialize_flags7, Wire.readVector3_bytes a ha, Wire.drop12_vec,
        Wire.readVector3_bytes b hb, Wire.drop12_vec, Wire.readVector3_serialized c hc]
    all_goals simp <;> decide

/-- Witness for C9 at a velocity-only update, the spec's own test vector
shape. -/
theorem c9_roundtrip_witness :
    (Wire.wfOpt (none : Option Wire.Vec3Bits) ∧ Wire.wfOpt (none : Option Wire.Vec3Bits)
      ∧ Wire.wfOpt (some (⟨1, 2, 4294967295⟩ : Wire.Vec3Bits)))
    ∧ (Wire.deserializePlayerUpdate (Wire.serializePlayerUpdate none none
          (some ⟨1, 2, 4294967295⟩)) = (none, none, some ⟨1, 2, 4294967295⟩)
       ∧ (Wire.serializePlayerUpdate none none
            (some (⟨1, 2, 4294967295⟩ : Wire.Vec3Bits))).headI.testBit 0 =
          (none : Option Wire.Vec3Bits).isSome
       ∧ (Wire.serializePlayerUpdate none none
            (some (⟨1, 2, 4294967295⟩ : Wire.Vec3Bits))).headI.testBit 1 =
          (none : Option Wire.Vec3Bits).isSome
       ∧ (Wire.serializePlayerUpdate none none
            (some (⟨1, 2, 4294967295⟩ : Wire.Vec3Bits))).headI.testBit 2 =
          (some (⟨1, 2, 4294967295⟩ : Wire.Vec3Bits)).isSome) :=
  ⟨⟨trivial, trivial, by decide⟩,
   c9_roundtrip none none (some ⟨1, 2, 4294967295⟩) trivial trivial (by decide)⟩

end CarSim

